import Mathlib

/-!
# Verification of the Phase 3.6 accounting-scenario harness

Shallow embedding of `PHASE_3.6_TEST_EXECUTION.py`: a black-box test harness
that drives an external double-entry ledger through five accounting scenarios
plus a cross-validation, records per-scenario results, prints a summary and
serializes the run.

Modelling conventions:
* Currency amounts are rationals (the Python code reads SQL decimals and
  converts with `float`; `ℚ` is the exact abstraction of that arithmetic).
* Python exceptions are `Except PyErr`; a Python `try/except` that swallows
  all exceptions is the `Except` eliminator back into a plain value.
* Python truthiness of `Optional[int]` values (`if not entry_id`) is the
  `truthyId` predicate: `None` and `0` are falsy.
* The external ledger (database + HTTP API) is an `Oracle σ`: a package of
  response functions over an abstract external state `σ`.  Database reads
  (`get_account_id`, `get_trial_balance`) may raise, because in the source
  those queries have no `except` clause; the API-client calls are total
  because `APIClient` wraps every request in a catch-all `try/except`.
-/

set_option autoImplicit false

/- The Batteries rational-number operations are `@[irreducible]`; re-allow
unfolding them inside this file so that concrete ledger computations can be
evaluated by `decide` and `rfl`. -/
attribute [local semireducible] Rat.add Rat.sub Rat.mul Rat.inv Rat.ofScientific

/-- Python exception values that the harness can encounter. -/
inductive PyErr
  | zeroDivision
  | attributeError (msg : String)
  | dbError (msg : String)
  | valueError (msg : String)
  | requestError (msg : String)
deriving DecidableEq, Repr

/-- Numeric rendering used when the harness builds diagnostic strings
(the Python code uses float formatting; only the fact that a string is
produced matters to any claim). -/
def fmtQ (q : ℚ) : String := toString q.num ++ "/" ++ toString q.den

-- ═══════════════════════════════════════════════════════════════
-- TestResults (source lines 89-128)
-- ═══════════════════════════════════════════════════════════════

/-- One record appended by `TestResults.add_test` (a Python dict with keys
`name`, `passed`, `details`, `entry_id`, `timestamp`; the timestamp is a
wall-clock string and is omitted from the model). -/
structure Rec where
  name : String
  passed : Bool
  details : String
  entry_id : Option Nat
deriving DecidableEq, Repr

/-- The `TestResults` tracker: ordered log plus pass/fail counters. -/
structure TestResults where
  tests : List Rec
  passed : Nat
  failed : Nat
deriving DecidableEq, Repr

def emptyResults : TestResults := ⟨[], 0, 0⟩

/-- `TestResults.add_test` (lines 97-109): append the record and bump the
matching counter. -/
def TestResults.add_test (r : TestResults) (name : String) (ok : Bool)
    (details : String) (eid : Option Nat) : TestResults :=
  { tests := r.tests ++ [⟨name, ok, details, eid⟩]
    passed := if ok then r.passed + 1 else r.passed
    failed := if ok then r.failed else r.failed + 1 }

/-- Per-record lines printed by the summary loop (lines 122-128).  The
`if test['entry_id']:` guard is Python truthiness: `None` and `0` print
nothing. -/
def recLines (t : Rec) : List String :=
  [(if t.passed then "PASS " else "FAIL ") ++ t.name]
  ++ (if t.passed then [] else ["   " ++ t.details])
  ++ (match t.entry_id with
      | some i => if i ≠ 0 then ["   Entry ID: " ++ toString i] else []
      | none => [])

/-- `TestResults.print_summary` (lines 111-128).  `total = passed + failed`;
the success-rate line computes `passed/total*100`, which in Python raises
`ZeroDivisionError` when `total` is zero. -/
def TestResults.print_summary (r : TestResults) : Except PyErr (List String) :=
  let total := r.passed + r.failed
  let l1 := "Passed: " ++ toString r.passed ++ "/" ++ toString total
  let l2 := "Failed: " ++ toString r.failed ++ "/" ++ toString total
  if total == 0 then Except.error PyErr.zeroDivision
  else
    let rate : ℚ := (r.passed : ℚ) / (total : ℚ) * 100
    Except.ok ([l1, l2, "Success Rate: " ++ fmtQ rate] ++ r.tests.flatMap recLines)

-- ═══════════════════════════════════════════════════════════════
-- Database model and direct SQL reads (source lines 135-193)
-- ═══════════════════════════════════════════════════════════════

/-- Row of `chart_of_accounts` (the columns the harness consults).
`deleted = true` models `deleted_at IS NOT NULL`. -/
structure Account where
  id : Nat
  account_code : String
  company_id : Nat
  deleted : Bool
deriving DecidableEq, Repr

/-- Row of `journal_entries` (columns consulted by the harness). -/
structure Entry where
  id : Nat
  company_id : Nat
  status : String
  deleted : Bool
deriving DecidableEq, Repr

/-- Row of `journal_entry_details` (columns consulted by the harness). -/
structure Line where
  journal_entry_id : Nat
  account_id : Nat
  company_id : Nat
  debit_amount : ℚ
  credit_amount : ℚ
  deleted : Bool
deriving DecidableEq, Repr

/-- The persisted ledger state the harness reads directly. -/
structure DB where
  accounts : List Account
  entries : List Entry
  details : List Line
deriving DecidableEq, Repr

def TEST_COMPANY_ID : Nat := 1

/-- `get_account_id` (lines 152-163): first `chart_of_accounts` row with the
given code, the given company and `deleted_at IS NULL`; `None` if absent. -/
def get_account_id (db : DB) (account_code : String) (company_id : Nat) : Option Nat :=
  (db.accounts.find? (fun a =>
    a.account_code == account_code && a.company_id == company_id && !a.deleted)).map
    (fun a => a.id)

/-- Ids of `journal_entries` rows with the given company, `status = 'posted'`
and `deleted_at IS NULL` — the subquery of `get_trial_balance` (lines 177-180). -/
def postedIds (db : DB) (cid : Nat) : List Nat :=
  (db.entries.filter (fun e =>
    e.company_id == cid && e.status == "posted" && !e.deleted)).map (fun e => e.id)

/-- The `journal_entry_details` rows selected by the `get_trial_balance`
query (lines 170-182): company matches and the owning entry is posted and
not deleted.  Note: the query has NO `deleted_at` filter on the detail rows
themselves. -/
def tbLines (db : DB) (cid : Nat) : List Line :=
  db.details.filter (fun l =>
    l.company_id == cid && (postedIds db cid).contains l.journal_entry_id)

/-- `CASE WHEN amount > 0 THEN amount ELSE 0 END`. -/
def casePos (q : ℚ) : ℚ := if 0 < q then q else 0

/-- One value of the trial-balance mapping (lines 186-190). -/
structure TBRow where
  debit : ℚ
  credit : ℚ
  balance : ℚ
deriving DecidableEq, Repr

/-- The aggregates the query's `GROUP BY account_id` produces for one
account over the selected rows. -/
def tbRowFor (ls : List Line) (aid : Nat) : TBRow :=
  let mine := ls.filter (fun l => l.account_id == aid)
  let d := (mine.map (fun l => casePos l.debit_amount)).sum
  let c := (mine.map (fun l => casePos l.credit_amount)).sum
  ⟨d, c, d - c⟩

/-- `get_trial_balance` (lines 166-193) as the dict it builds: one key per
account id occurring among the selected detail rows, each mapped to its
aggregates. -/
def get_trial_balance (db : DB) (cid : Nat) : List (Nat × TBRow) :=
  let ls := tbLines db cid
  ((ls.map (fun l => l.account_id)).dedup).map (fun a => (a, tbRowFor ls a))

/-- Dictionary lookup in the trial-balance mapping (the
`next((acc for acc_id, acc in tb.items() if acc_id == x), None)` idiom). -/
def tbLookup (db : DB) (cid aid : Nat) : Option TBRow :=
  ((get_trial_balance db cid).find? (fun p => p.1 == aid)).map (fun p => p.2)

/-- `sum(acc['debit'] for acc in tb.values())`. -/
def totalDebit (tbl : List (Nat × TBRow)) : ℚ := (tbl.map (fun p => p.2.debit)).sum

/-- `sum(acc['credit'] for acc in tb.values())`. -/
def totalCredit (tbl : List (Nat × TBRow)) : ℚ := (tbl.map (fun p => p.2.credit)).sum

-- ═══════════════════════════════════════════════════════════════
-- APIClient.create_journal_entry over an HTTP response (lines 235-250)
-- ═══════════════════════════════════════════════════════════════

/-- JSON-like values, enough for the response bodies the client touches. -/
inductive JVal
  | null
  | num (n : Nat)
  | str (s : String)
  | arr (xs : List JVal)
  | obj (kvs : List (String × JVal))

/-- Python `value.get(key, default)`: a dict lookup with a default; on a
non-dict receiver the attribute access raises `AttributeError`. -/
def jgetD (v : JVal) (key : String) (dflt : JVal) : Except PyErr JVal :=
  match v with
  | JVal.obj kvs =>
      Except.ok (match kvs.find? (fun p => p.1 == key) with
        | some p => p.2
        | none => dflt)
  | _ => Except.error (PyErr.attributeError "object has no attribute get")

/-- Outcome of one `requests.post` call: a status with a body (`none` body
models a payload `response.json()` cannot parse, which raises), or a raised
transport error. -/
inductive HttpResult
  | response (status : Nat) (body : Option JVal)
  | transportError (msg : String)

/-- The body of `create_journal_entry` before its catch-all handler:
`if status in [200, 201]: return response.json().get('data', {}).get('id')`,
else print and return `None`. -/
def createInner (r : HttpResult) : Except PyErr (Option JVal) :=
  match r with
  | HttpResult.transportError m => Except.error (PyErr.requestError m)
  | HttpResult.response status body =>
      if status == 200 || status == 201 then
        (match body with
          | some j => Except.ok j
          | none => Except.error (PyErr.valueError "invalid json")).bind fun j =>
        (jgetD j "data" (JVal.obj [])).bind fun d =>
        (jgetD d "id" JVal.null).bind fun i =>
        Except.ok (match i with | JVal.null => none | v => some v)
      else Except.ok none

/-- `APIClient.create_journal_entry` (lines 235-250): the catch-all
`except Exception` turns any raise into a printed message and `None`. -/
def create_journal_entry (r : HttpResult) : Option JVal :=
  match createInner r with
  | Except.ok v => v
  | Except.error _ => none

-- ═══════════════════════════════════════════════════════════════
-- The external ledger as an oracle, and the harness scenarios
-- ═══════════════════════════════════════════════════════════════

/-- One element of the `details` list of a journal-entry payload. -/
structure Detail where
  account_id : Nat
  debit_amount : ℚ
  credit_amount : ℚ
  description : String
deriving DecidableEq, Repr

/-- A `POST /journals` payload as the scenarios assemble it.  The two date
fields are `str(TEST_DATE)` (the run day); the claims never depend on the
date value. -/
structure EntryData where
  entry_type : String
  entry_date : String
  posting_date : String
  description : String
  details : List Detail
deriving DecidableEq, Repr

def TEST_DATE : String := "2026-10-12"

/-- The external systems a `Phase36Tester` instance talks to, over an
abstract external state `σ`.  `accountId` and `tb` are the direct database
reads (no `except` clause in the source, so they may raise); `create` and
`post` are the API-client calls (total: `APIClient` catches everything and
returns `None`/`False`). -/
structure Oracle (σ : Type) where
  accountId : σ → String → Except PyErr (Option Nat)
  create : σ → EntryData → Option Nat × σ
  post : σ → Nat → Bool × σ
  tb : σ → Except PyErr (List (Nat × TBRow))


/-- Python truthiness of an `Optional[int]`: `None` and `0` are falsy
(the scenarios guard with `if not cash_id`, `if not entry_id`, ...). -/
def truthyId : Option Nat → Bool
  | none => false
  | some n => n != 0

-- Account codes from the `ACCOUNTS` table (lines 55-82).

def CASH_CODE : String := "1010"
def CAPITAL_CODE : String := "3100"
def SALES_REVENUE_CODE : String := "4100"
def SALARY_EXPENSE_CODE : String := "6100"
def COGS_CODE : String := "5100"

-- Scenario names.

def n1 : String := "Scenario 1: Basic Balanced Entry"
def n2 : String := "Scenario 2: Unbalanced Entry Rejection"
def n3 : String := "Scenario 3: Revenue Transaction"
def n4 : String := "Scenario 4: Expense Transaction"
def n5 : String := "Scenario 5: COGS Transaction"
def nX : String := "Cross-Validation: TB = GL"

-- The entry payloads each scenario assembles (BUILD step).

/-- Scenario 1 payload (lines 328-347): debit cash 100000, credit capital 100000. -/
def entry1 (cash capital : Nat) : EntryData :=
  ⟨"journal", TEST_DATE, TEST_DATE, "Scenario 1: Initial Capital",
    [⟨cash, 100000, 0, "Received initial capital"⟩,
     ⟨capital, 0, 100000, "Initial capital contribution"⟩]⟩

/-- Scenario 2 payload (lines 395-414): debit cash 1000, credit capital 500. -/
def entry2 (cash capital : Nat) : EntryData :=
  ⟨"journal", TEST_DATE, TEST_DATE, "Scenario 2: Unbalanced Entry",
    [⟨cash, 1000, 0, "Unbalanced debit"⟩,
     ⟨capital, 0, 500, "Only partial credit"⟩]⟩

/-- Scenario 3 payload (lines 450-469): debit cash 50000, credit sales revenue 50000. -/
def entry3 (cash revenue : Nat) : EntryData :=
  ⟨"journal", TEST_DATE, TEST_DATE, "Scenario 3: Sales Revenue",
    [⟨cash, 50000, 0, "Cash received from sales"⟩,
     ⟨revenue, 0, 50000, "Revenue from sales"⟩]⟩

/-- Scenario 4 payload (lines 510-529): debit salary expense 20000, credit cash 20000. -/
def entry4 (cash salary : Nat) : EntryData :=
  ⟨"journal", TEST_DATE, TEST_DATE, "Scenario 4: Salary Expense",
    [⟨salary, 20000, 0, "Monthly salary expense"⟩,
     ⟨cash, 0, 20000, "Cash paid for salaries"⟩]⟩

/-- Scenario 5 payload (lines 570-589): debit COGS 30000, credit cash 30000. -/
def entry5 (cash cogs : Nat) : EntryData :=
  ⟨"journal", TEST_DATE, TEST_DATE, "Scenario 5: COGS Purchase",
    [⟨cogs, 30000, 0, "Cost of goods sold"⟩,
     ⟨cash, 0, 30000, "Cash paid for inventory"⟩]⟩

-- The balance comparisons, one definition per comparison site in the source.

/-- Line 364: `abs(total_debit - total_credit) < 0.01`. -/
def scenario1_check (td tc : ℚ) : Bool := decide (|td - tc| < 1/100)

/-- Line 480: `abs(revenue_balance['credit'] - 50000) < 0.01`. -/
def scenario3_check (credit : ℚ) : Bool := decide (|credit - 50000| < 1/100)

/-- Line 540: `abs(expense_balance['debit'] - 20000) < 0.01`. -/
def scenario4_check (debit : ℚ) : Bool := decide (|debit - 20000| < 1/100)

/-- Line 600: `abs(cogs_balance['debit'] - 30000) < 0.01`. -/
def scenario5_check (debit : ℚ) : Bool := decide (|debit - 30000| < 1/100)

/-- Line 641: `abs(total_debit - total_credit) < 0.01`. -/
def crossval_check (td tc : ℚ) : Bool := decide (|td - tc| < 1/100)

/-- Lookup of one account in a fetched trial balance
(`next((acc for acc_id, acc in tb.items() if acc_id == x), None)`). -/
def lookupTB (tbl : List (Nat × TBRow)) (aid : Nat) : Option TBRow :=
  (tbl.find? (fun p => p.1 == aid)).map (fun p => p.2)

/-- The value scenario 3 records as `test_passed`
(`revenue_balance and abs(revenue_balance['credit'] - 50000) < 0.01`;
a missing row is falsy). -/
def s3pass (tbl : List (Nat × TBRow)) (aid : Nat) : Bool :=
  match lookupTB tbl aid with
  | none => false
  | some row => scenario3_check row.credit

/-- `test_passed` of scenario 4. -/
def s4pass (tbl : List (Nat × TBRow)) (aid : Nat) : Bool :=
  match lookupTB tbl aid with
  | none => false
  | some row => scenario4_check row.debit

/-- `test_passed` of scenario 5. -/
def s5pass (tbl : List (Nat × TBRow)) (aid : Nat) : Bool :=
  match lookupTB tbl aid with
  | none => false
  | some row => scenario5_check row.debit

/-- Scenario 2's diagnostic text (lines 421-426). -/
def s2msg (pass : Bool) : String :=
  if pass then "System correctly rejected unbalanced entry"
  else "System incorrectly accepted unbalanced entry"

/-- Scenario 1's / cross-validation's diagnostic for the totals. -/
def balMsg (td tc : ℚ) : String := "Debit: " ++ fmtQ td ++ " | Credit: " ++ fmtQ tc

/-- Scenario 3's diagnostic (`revenue_balance['credit'] if revenue_balance else 0`). -/
def revMsg (row : Option TBRow) : String :=
  "Revenue Credit: " ++ fmtQ (match row with | some r => r.credit | none => 0)

/-- Scenario 4's diagnostic. -/
def expMsg (row : Option TBRow) : String :=
  "Salary Expense Debit: " ++ fmtQ (match row with | some r => r.debit | none => 0)

/-- Scenario 5's diagnostic. -/
def cogsMsg (row : Option TBRow) : String :=
  "COGS Debit: " ++ fmtQ (match row with | some r => r.debit | none => 0)

-- ═══════════════════════════════════════════════════════════════
-- The five scenarios (lines 306-608) and cross-validation (631-651)
-- ═══════════════════════════════════════════════════════════════

/-- The value a scenario produces: its `(bool, entry_id)` return, the
external state after its calls, and the updated results log. -/
def ScenOut (σ : Type) := (Bool × Option Nat) × σ × TestResults

/-- `scenario_1_balanced_entry` (lines 306-372). -/
def scenario_1 {σ : Type} (o : Oracle σ) (st : σ) (r : TestResults) : Except PyErr (ScenOut σ) :=
  (o.accountId st CASH_CODE).bind fun cash =>
  (o.accountId st CAPITAL_CODE).bind fun capital =>
  if !truthyId cash || !truthyId capital then
    Except.ok ((false, none), st, r.add_test n1 false "Account IDs not found" none)
  else
    let cr := o.create st (entry1 (cash.getD 0) (capital.getD 0))
    if !truthyId cr.1 then
      Except.ok ((false, none), cr.2, r.add_test n1 false "Failed to create entry" none)
    else
      let pr := o.post cr.2 ((cr.1).getD 0)
      if !pr.1 then
        Except.ok ((false, cr.1), pr.2, r.add_test n1 false "Failed to post entry" none)
      else
        (o.tb pr.2).bind fun tbl =>
          let td := totalDebit tbl
          let tc := totalCredit tbl
          let isb := scenario1_check td tc
          Except.ok ((isb, cr.1), pr.2, r.add_test n1 isb (balMsg td tc) cr.1)

/-- `scenario_2_unbalanced_entry` (lines 374-428).  Note: the passing
condition is `entry_id is None` (identity with `None`, not truthiness), and
`post_journal_entry` is never called. -/
def scenario_2 {σ : Type} (o : Oracle σ) (st : σ) (r : TestResults) : Except PyErr (ScenOut σ) :=
  (o.accountId st CASH_CODE).bind fun cash =>
  (o.accountId st CAPITAL_CODE).bind fun capital =>
  if !truthyId cash || !truthyId capital then
    Except.ok ((false, none), st, r.add_test n2 false "Account IDs not found" none)
  else
    let cr := o.create st (entry2 (cash.getD 0) (capital.getD 0))
    let pass := (cr.1).isNone
    Except.ok ((pass, cr.1), cr.2, r.add_test n2 pass (s2msg pass) cr.1)

/-- `scenario_3_revenue_transaction` (lines 430-488).  The create/post guard
is `if not entry_id or not self.api.post_journal_entry(entry_id)`: when
creation yields a falsy id, `post` is not called (short circuit). -/
def scenario_3 {σ : Type} (o : Oracle σ) (st : σ) (r : TestResults) : Except PyErr (ScenOut σ) :=
  (o.accountId st CASH_CODE).bind fun cash =>
  (o.accountId st SALES_REVENUE_CODE).bind fun revenue =>
  if !truthyId cash || !truthyId revenue then
    Except.ok ((false, none), st, r.add_test n3 false "Account IDs not found" none)
  else
    let cr := o.create st (entry3 (cash.getD 0) (revenue.getD 0))
    if !truthyId cr.1 then
      Except.ok ((false, cr.1), cr.2, r.add_test n3 false "Failed to create/post entry" none)
    else
      let pr := o.post cr.2 ((cr.1).getD 0)
      if !pr.1 then
        Except.ok ((false, cr.1), pr.2, r.add_test n3 false "Failed to create/post entry" none)
      else
        (o.tb pr.2).bind fun tbl =>
          let pass := s3pass tbl (revenue.getD 0)
          Except.ok ((pass, cr.1), pr.2,
            r.add_test n3 pass (revMsg (lookupTB tbl (revenue.getD 0))) cr.1)

/-- `scenario_4_expense_transaction` (lines 490-548). -/
def scenario_4 {σ : Type} (o : Oracle σ) (st : σ) (r : TestResults) : Except PyErr (ScenOut σ) :=
  (o.accountId st CASH_CODE).bind fun cash =>
  (o.accountId st SALARY_EXPENSE_CODE).bind fun salary =>
  if !truthyId cash || !truthyId salary then
    Except.ok ((false, none), st, r.add_test n4 false "Account IDs not found" none)
  else
    let cr := o.create st (entry4 (cash.getD 0) (salary.getD 0))
    if !truthyId cr.1 then
      Except.ok ((false, cr.1), cr.2, r.add_test n4 false "Failed to create/post entry" none)
    else
      let pr := o.post cr.2 ((cr.1).getD 0)
      if !pr.1 then
        Except.ok ((false, cr.1), pr.2, r.add_test n4 false "Failed to create/post entry" none)
      else
        (o.tb pr.2).bind fun tbl =>
          let pass := s4pass tbl (salary.getD 0)
          Except.ok ((pass, cr.1), pr.2,
            r.add_test n4 pass (expMsg (lookupTB tbl (salary.getD 0))) cr.1)

/-- `scenario_5_cogs_transaction` (lines 550-608). -/
def scenario_5 {σ : Type} (o : Oracle σ) (st : σ) (r : TestResults) : Except PyErr (ScenOut σ) :=
  (o.accountId st CASH_CODE).bind fun cash =>
  (o.accountId st COGS_CODE).bind fun cogs =>
  if !truthyId cash || !truthyId cogs then
    Except.ok ((false, none), st, r.add_test n5 false "Account IDs not found" none)
  else
    let cr := o.create st (entry5 (cash.getD 0) (cogs.getD 0))
    if !truthyId cr.1 then
      Except.ok ((false, cr.1), cr.2, r.add_test n5 false "Failed to create/post entry" none)
    else
      let pr := o.post cr.2 ((cr.1).getD 0)
      if !pr.1 then
        Except.ok ((false, cr.1), pr.2, r.add_test n5 false "Failed to create/post entry" none)
      else
        (o.tb pr.2).bind fun tbl =>
          let pass := s5pass tbl (cogs.getD 0)
          Except.ok ((pass, cr.1), pr.2,
            r.add_test n5 pass (cogsMsg (lookupTB tbl (cogs.getD 0))) cr.1)

/-- `cross_validation_trial_balance` (lines 631-651): reads the trial
balance, compares the global totals, records one result (no entry id). -/
def cross_validation {σ : Type} (o : Oracle σ) (st : σ) (r : TestResults) :
    Except PyErr (σ × TestResults) :=
  (o.tb st).bind fun tbl =>
    let td := totalDebit tbl
    let tc := totalCredit tbl
    let isb := crossval_check td tc
    Except.ok (st, r.add_test nX isb ("Difference: " ++ fmtQ |td - tc|) none)

/-- `run_all_scenarios` (lines 610-629): the five scenarios in order, the
cross-validation, the summary print, then `self.results.failed == 0`. -/
def run_all_scenarios {σ : Type} (o : Oracle σ) (st : σ) :
    Except PyErr (TestResults × σ × Bool) :=
  (scenario_1 o st emptyResults).bind fun x1 =>
  (scenario_2 o x1.2.1 x1.2.2).bind fun x2 =>
  (scenario_3 o x2.2.1 x2.2.2).bind fun x3 =>
  (scenario_4 o x3.2.1 x3.2.2).bind fun x4 =>
  (scenario_5 o x4.2.1 x4.2.2).bind fun x5 =>
  (cross_validation o x5.2.1 x5.2.2).bind fun xv =>
  (TestResults.print_summary xv.2).bind fun _ =>
  Except.ok (xv.2, xv.1, xv.2.failed == 0)

-- ═══════════════════════════════════════════════════════════════
-- main (lines 658-698)
-- ═══════════════════════════════════════════════════════════════

/-- Attribute access `t.__dict__` for an element `t` of `TestResults.tests`
(main, line 681).  `add_test` appends plain `dict` literals, and a Python
`dict` instance has no such attribute, so the access raises
`AttributeError` for every element. -/
def dictAttr (_ : Rec) : Except PyErr Unit :=
  Except.error (PyErr.attributeError "dict object has no attribute for serialization")

/-- The list comprehension `[t.__dict__ for t in tester.results.tests]`
feeding `json.dump` (line 681): evaluates `dictAttr` on each record in
order, propagating the first raise.  On an empty log it yields an empty
document. -/
def serializeTests : List Rec → Except PyErr (List Unit)
  | [] => Except.ok []
  | t :: ts =>
      (dictAttr t).bind fun v =>
      (serializeTests ts).bind fun vs =>
      Except.ok (v :: vs)

/-- Process exit status (`sys.exit(0 if success else 1)`, line 698). -/
inductive ExitCode
  | zero
  | one
deriving DecidableEq, Repr

/-- The body of `main`'s `try` block (lines 667-690): login (a failed login
returns `False` without raising), the scenario run, then serialization of
the results; yields the value `main` returns plus the recorded log and the
final external state. -/
def mainBody {σ : Type} (loginOk : Bool) (o : Oracle σ) (st : σ) :
    Except PyErr (Bool × List Rec × σ) :=
  if !loginOk then Except.ok (false, [], st)
  else
    (run_all_scenarios o st).bind fun x =>
    (serializeTests x.1.tests).bind fun _ =>
    Except.ok (x.2.2, x.1.tests, x.2.1)

/-- `main` plus the exit mapping (lines 658-698): a failed database
connection calls `sys.exit(1)` inside `connect_db`, before any scenario;
otherwise the `try` body runs, its catch-all `except Exception` converts
any raise into a `False` return, and the process exits 0 exactly when
`main` returned `True`. -/
def pymain {σ : Type} (dbOk loginOk : Bool) (o : Oracle σ) (st : σ) : ExitCode :=
  if !dbOk then ExitCode.one
  else
    match mainBody loginOk o st with
    | Except.ok x => if x.1 then ExitCode.zero else ExitCode.one
    | Except.error _ => ExitCode.one

-- ═══════════════════════════════════════════════════════════════
-- Concrete external-system instances (inputs for witnesses and
-- counterexamples; the harness treats the ledger as an opaque service,
-- so any oracle is a legitimate test input)
-- ═══════════════════════════════════════════════════════════════

/-- A fresh journal-entry id: one past the largest id in the store. -/
def freshId (db : DB) : Nat := (db.entries.foldl (fun m e => max m e.id) 0) + 1

/-- Detail rows persisted for a newly created entry. -/
def mkLines (i : Nat) (d : EntryData) : List Line :=
  d.details.map (fun dl => ⟨i, dl.account_id, TEST_COMPANY_ID, dl.debit_amount, dl.credit_amount, false⟩)

/-- Does a payload balance (total debits equal total credits)? -/
def entryBalanced (d : EntryData) : Bool :=
  decide ((d.details.map (fun dl => dl.debit_amount)).sum
    = (d.details.map (fun dl => dl.credit_amount)).sum)

/-- A well-behaved ledger's create endpoint: accepts a balanced payload,
storing a fresh `draft` (unposted) entry with its lines; refuses an
unbalanced one. -/
def ledgerCreate (db : DB) (d : EntryData) : Option Nat × DB :=
  if entryBalanced d then
    let i := freshId db
    (some i,
      { db with entries := db.entries ++ [⟨i, TEST_COMPANY_ID, "draft", false⟩]
                details := db.details ++ mkLines i d })
  else (none, db)

/-- A lenient ledger's create endpoint: accepts every payload (including an
unbalanced one) as a fresh `draft` entry. -/
def lenientCreate (db : DB) (d : EntryData) : Option Nat × DB :=
  let i := freshId db
  (some i,
    { db with entries := db.entries ++ [⟨i, TEST_COMPANY_ID, "draft", false⟩]
              details := db.details ++ mkLines i d })

/-- Posting an entry: marks it `posted` if it exists. -/
def ledgerPost (db : DB) (i : Nat) : Bool × DB :=
  if db.entries.any (fun e => e.id == i) then
    (true,
      { db with entries := db.entries.map (fun e =>
          if e.id == i then { e with status := "posted" } else e) })
  else (false, db)

/-- An oracle whose database answers are computed by the embedded SQL reads
themselves and whose ledger enforces the balance rule. -/
def goodOracle : Oracle DB :=
  { accountId := fun db code => Except.ok (get_account_id db code TEST_COMPANY_ID)
    create := ledgerCreate
    post := ledgerPost
    tb := fun db => Except.ok (get_trial_balance db TEST_COMPANY_ID) }

/-- Like `goodOracle`, but the ledger wrongly accepts unbalanced entries
(still storing them unposted). -/
def lenientOracle : Oracle DB :=
  { accountId := fun db code => Except.ok (get_account_id db code TEST_COMPANY_ID)
    create := lenientCreate
    post := ledgerPost
    tb := fun db => Except.ok (get_trial_balance db TEST_COMPANY_ID) }

/-- An oracle whose trial-balance read raises (for example the database
connection drops mid-run). -/
def badOracle : Oracle Unit :=
  { accountId := fun _ code => Except.ok (some (if code == CASH_CODE then 1 else 2))
    create := fun s _ => (some 1, s)
    post := fun s _ => (true, s)
    tb := fun _ => Except.error (PyErr.dbError "connection lost") }

/-- Chart of accounts holding the five codes the scenarios resolve. -/
def baseAccounts : List Account :=
  [⟨1, CASH_CODE, 1, false⟩, ⟨2, CAPITAL_CODE, 1, false⟩,
   ⟨3, SALES_REVENUE_CODE, 1, false⟩, ⟨4, SALARY_EXPENSE_CODE, 1, false⟩,
   ⟨5, COGS_CODE, 1, false⟩]

/-- An empty ledger carrying only the chart of accounts. -/
def db0 : DB := ⟨baseAccounts, [], []⟩

/-- A ledger in which the sales-revenue account (id 3) already carries a
posted credit of 10000 before scenario 3 runs. -/
def dbPre : DB :=
  ⟨baseAccounts,
   [⟨1, 1, "posted", false⟩],
   [⟨1, 1, 1, 10000, 0, false⟩, ⟨1, 3, 1, 0, 10000, false⟩]⟩

/-- A ledger whose only detail line is itself soft-deleted while its owning
entry is posted and not deleted. -/
def cexDB : DB :=
  ⟨baseAccounts, [⟨1, 1, "posted", false⟩], [⟨1, 7, 1, 5, 0, true⟩]⟩

-- Projections used to state concrete facts about run outcomes.

/-- The `(bool, entry_id)` pair a scenario returned, when it returned. -/
def scenFlag : Except PyErr (ScenOut DB) → Option (Bool × Option Nat)
  | Except.ok x => some x.1
  | Except.error _ => none

/-- The external state a scenario left behind, when it returned. -/
def scenState : Except PyErr (ScenOut DB) → Option DB
  | Except.ok x => some x.2.1
  | Except.error _ => none

/-- The records a scenario's log holds, when it returned. -/
def scenTests : Except PyErr (ScenOut DB) → List Rec
  | Except.ok x => x.2.2.tests
  | Except.error _ => []

/-- The failure counter of a finished run. -/
def runFailed : Except PyErr (TestResults × DB × Bool) → Option Nat
  | Except.ok x => some x.1.failed
  | Except.error _ => none

/-- The recorded log of a finished run. -/
def runTests : Except PyErr (TestResults × DB × Bool) → List Rec
  | Except.ok x => x.1.tests
  | Except.error _ => []

/-- The aggregate credit `get_trial_balance` reports for one account
(0 when the account has no row). -/
def tbCreditAt (db : DB) (aid : Nat) : ℚ :=
  match tbLookup db TEST_COMPANY_ID aid with
  | some row => row.credit
  | none => 0

-- ═══════════════════════════════════════════════════════════════
-- Specification-side definitions (written from the spec's words, to be
-- compared with the embeddings above)
-- ═══════════════════════════════════════════════════════════════

/-- The single reusable tolerance predicate of spec section 4.4:
`withinTolerance(a, b, epsilon) = (abs(a - b) < epsilon)`. -/
def withinTolerance (a b eps : ℚ) : Bool := decide (|a - b| < eps)

/-- The spec's default epsilon, 0.01 currency units. -/
def defaultEps : ℚ := 1/100

/-- The trial-balance mapping exactly as claim C3 states it: an account is a
key exactly when it has at least one NON-deleted detail line belonging to a
posted, non-deleted entry of the tenant, and the value holds the plain sums
of those lines' debit and credit amounts, with balance = debit − credit. -/
def trialBalance_claim (db : DB) (cid aid : Nat) : Option TBRow :=
  let mine := db.details.filter (fun l =>
    l.company_id == cid && !l.deleted
      && (postedIds db cid).contains l.journal_entry_id && l.account_id == aid)
  if mine.isEmpty then none
  else some ⟨(mine.map (fun l => l.debit_amount)).sum,
             (mine.map (fun l => l.credit_amount)).sum,
             (mine.map (fun l => l.debit_amount)).sum
               - (mine.map (fun l => l.credit_amount)).sum⟩

/-- The trial-balance mapping as amended: the line-level soft-delete filter
is dropped (the query never applies one), so soft-deleted lines of posted,
non-deleted entries do contribute. -/
def trialBalance_amended (db : DB) (cid aid : Nat) : Option TBRow :=
  let mine := db.details.filter (fun l =>
    l.company_id == cid
      && (postedIds db cid).contains l.journal_entry_id && l.account_id == aid)
  if mine.isEmpty then none
  else some ⟨(mine.map (fun l => l.debit_amount)).sum,
             (mine.map (fun l => l.credit_amount)).sum,
             (mine.map (fun l => l.debit_amount)).sum
               - (mine.map (fun l => l.credit_amount)).sum⟩

/-- `.get('data', {}).get('id')` of a parsed body, with every Python raise
collapsed to absence — the specification-side reading of a well-formed
response body containing an id. -/
def extractId (b : JVal) : Option JVal :=
  match b with
  | JVal.obj kvs =>
      match (kvs.find? (fun p => p.1 == "data")).map (fun p => p.2) with
      | some (JVal.obj kvs2) =>
          (match (kvs2.find? (fun p => p.1 == "id")).map (fun p => p.2) with
           | some JVal.null => none
           | some v => some v
           | none => none)
      | some _ => none
      | none => none
  | _ => none

-- ═══════════════════════════════════════════════════════════════
-- Predicates used to state the claims
-- ═══════════════════════════════════════════════════════════════

/-- A well-formed 2xx response body carrying the assigned id 42. -/
def goodBody : JVal := JVal.obj [("data", JVal.obj [("id", JVal.num 42)])]

/-- A scenario outcome returned normally and appended exactly one record to
the results log it was given. -/
def oneAppended {σ : Type} (r : TestResults) : Except PyErr (ScenOut σ) → Prop
  | Except.ok y => ∃ t, y.2.2.tests = r.tests ++ [t]
  | Except.error _ => False

/-- The ledger's create endpoint stores at most an unposted entry: either it
leaves the store unchanged (a rejection) or it appends one entry whose
status is not `posted`, with a fresh id, together with detail lines that all
belong to that new entry.  This is the spec's contract that `postEntry`, and
only `postEntry`, transitions an entry to posted status. -/
def CreatesOnlyDrafts (o : Oracle DB) : Prop :=
  ∀ db d, (o.create db d).2 = db ∨
    ∃ e ls, (o.create db d).2
        = { db with entries := db.entries ++ [e], details := db.details ++ ls }
      ∧ e.status ≠ "posted" ∧ (∀ e0 ∈ db.entries, e0.id ≠ e.id)
      ∧ (∀ l ∈ ls, l.journal_entry_id = e.id)

-- ═══════════════════════════════════════════════════════════════
-- Helper lemmas about the trial-balance dictionary
-- ═══════════════════════════════════════════════════════════════

lemma findPairMap (l : List Nat) (f : Nat → TBRow) (aid : Nat) :
    ((l.map (fun a => (a, f a))).find? (fun p => p.1 == aid)).map (fun p => p.2)
      = (l.find? (fun a => a == aid)).map f := by
  rw [List.find?_map, Option.map_map]
  rfl

lemma findBeqAny (l : List Nat) (aid : Nat) :
    l.find? (fun a => a == aid)
      = if l.any (fun a => a == aid) then some aid else none := by
  induction l with
  | nil => rfl
  | cons a t ih =>
      cases h : (a == aid)
      · simp [List.find?_cons, h, ih]
      · have ha : a = aid := by simpa using h
        subst ha
        simp [List.find?_cons, h]

lemma dedupAny (l : List Nat) (p : Nat → Bool) : l.dedup.any p = l.any p := by
  cases hb : l.any p
  · rw [List.any_eq_false] at hb ⊢
    intro x hx
    exact hb x (List.mem_dedup.mp hx)
  · rw [List.any_eq_true] at hb ⊢
    obtain ⟨x, hx, hpx⟩ := hb
    exact ⟨x, List.mem_dedup.mpr hx, hpx⟩

lemma anyMapGen (l : List Line) (f : Line → Nat) (p : Nat → Bool) :
    (l.map f).any p = l.any (fun a => p (f a)) := by
  induction l with
  | nil => rfl
  | cons a t ih => simp [List.any_cons, ih]

/-- `get_trial_balance` lookup, characterised: an account is present exactly
when some selected row mentions it, and then maps to its aggregates. -/
lemma tbLookup_eq (db : DB) (cid aid : Nat) :
    tbLookup db cid aid =
      if (tbLines db cid).any (fun l => l.account_id == aid)
      then some (tbRowFor (tbLines db cid) aid) else none := by
  unfold tbLookup get_trial_balance
  rw [findPairMap, findBeqAny, dedupAny]
  simp only [anyMapGen]
  split <;> simp

lemma casePos_of_nonneg (q : ℚ) (h : 0 ≤ q) : casePos q = q := by
  unfold casePos
  rcases lt_or_eq_of_le h with h1 | h1
  · simp [h1]
  · simp [← h1]

lemma anyFilterEmpty (l : List Line) (p : Line → Bool) :
    l.any p = !(l.filter p).isEmpty := by
  induction l with
  | nil => rfl
  | cons a t ih => cases h : p a <;> simp [List.any_cons, List.filter_cons, h, ih]

lemma tbFilterEq (db : DB) (cid aid : Nat) :
    (tbLines db cid).filter (fun l => l.account_id == aid)
      = db.details.filter (fun l => l.company_id == cid
          && (postedIds db cid).contains l.journal_entry_id && l.account_id == aid) := by
  unfold tbLines
  rw [List.filter_filter]
  apply List.filter_congr
  intro l _
  cases l.company_id == cid <;>
    cases (postedIds db cid).contains l.journal_entry_id <;>
    cases l.account_id == aid <;> rfl

@[simp] lemma pyBindOk {α β : Type} (a : α) (f : α → Except PyErr β) :
    (Except.ok a : Except PyErr α).bind f = f a := rfl

@[simp] lemma pyBindErr {α β : Type} (e : PyErr) (f : α → Except PyErr β) :
    (Except.error e : Except PyErr α).bind f = Except.error e := rfl

-- ═══════════════════════════════════════════════════════════════
-- Helper lemmas about the ledger frame of unposted entries
-- ═══════════════════════════════════════════════════════════════

lemma postedIds_append_draft (db : DB) (e : Entry) (ls : List Line) (cid : Nat)
    (hst : e.status ≠ "posted") :
    postedIds { db with entries := db.entries ++ [e], details := db.details ++ ls } cid
      = postedIds db cid := by
  unfold postedIds
  have hpe : (e.status == "posted") = false := by simp [hst]
  simp [List.filter_append, List.filter_cons, hpe]

lemma tbLines_append_draft (db : DB) (e : Entry) (ls : List Line) (cid : Nat)
    (hst : e.status ≠ "posted") (hfresh : ∀ e0 ∈ db.entries, e0.id ≠ e.id)
    (hls : ∀ l ∈ ls, l.journal_entry_id = e.id) :
    tbLines { db with entries := db.entries ++ [e], details := db.details ++ ls } cid
      = tbLines db cid := by
  unfold tbLines
  rw [postedIds_append_draft db e ls cid hst]
  show (db.details ++ ls).filter _ = _
  rw [List.filter_append]
  have hmem : e.id ∉ postedIds db cid := by
    intro hmem
    unfold postedIds at hmem
    rw [List.mem_map] at hmem
    obtain ⟨e0, he0, hide⟩ := hmem
    exact hfresh e0 (List.mem_filter.mp he0).1 hide
  have hnil : ls.filter (fun l =>
      l.company_id == cid && (postedIds db cid).contains l.journal_entry_id) = [] := by
    rw [List.filter_eq_nil_iff]
    intro l hl
    have hid := hls l hl
    have hcont : ((postedIds db cid).contains l.journal_entry_id) = false := by
      rw [hid]
      simp [List.contains, hmem]
    simp only [hcont, Bool.and_false, Bool.false_eq_true, not_false_eq_true]
  rw [hnil, List.append_nil]

lemma gtb_append_draft (db : DB) (e : Entry) (ls : List Line) (cid : Nat)
    (hst : e.status ≠ "posted") (hfresh : ∀ e0 ∈ db.entries, e0.id ≠ e.id)
    (hls : ∀ l ∈ ls, l.journal_entry_id = e.id) :
    get_trial_balance { db with entries := db.entries ++ [e], details := db.details ++ ls } cid
      = get_trial_balance db cid := by
  unfold get_trial_balance
  rw [tbLines_append_draft db e ls cid hst hfresh hls]

lemma foldlMax_ge (l : List Entry) (acc : Nat) :
    acc ≤ l.foldl (fun m x => max m x.id) acc := by
  induction l generalizing acc with
  | nil => exact le_refl acc
  | cons a t ih => exact le_trans (le_max_left acc a.id) (ih (max acc a.id))

lemma mem_le_foldlMax (l : List Entry) (e : Entry) (he : e ∈ l) :
    ∀ acc, e.id ≤ l.foldl (fun m x => max m x.id) acc := by
  induction l with
  | nil => cases he
  | cons a t ih =>
      intro acc
      rw [List.foldl_cons]
      rcases List.mem_cons.mp he with h | h
      · rw [h]
        exact le_trans (le_max_right acc a.id) (foldlMax_ge t (max acc a.id))
      · exact ih h (max acc a.id)

/-- The lenient ledger only ever stores unposted `draft` entries at creation. -/
lemma lenient_creates_drafts : CreatesOnlyDrafts lenientOracle := by
  intro db d
  right
  refine ⟨⟨freshId db, TEST_COMPANY_ID, "draft", false⟩, mkLines (freshId db) d,
    rfl, ?_, ?_, ?_⟩
  · show ("draft" : String) ≠ "posted"
    decide
  · intro e0 he0
    have h := mem_le_foldlMax db.entries e0 he0 0
    show e0.id ≠ freshId db
    unfold freshId
    omega
  · intro l hl
    simp only [mkLines, List.mem_map] at hl
    obtain ⟨dl, _, hrfl⟩ := hl
    rw [← hrfl]

-- ═══════════════════════════════════════════════════════════════
-- The claims
-- ═══════════════════════════════════════════════════════════════

set_option maxRecDepth 8000 in
/-- C1: the claim says the harness serializes the ordered result records to
the output document at end of run and that re-loading reproduces them.  In
the code this is impossible: `main` evaluates `t.__dict__` for each element
`t` of `results.tests`, but those elements are plain dicts, so the very
first element raises `AttributeError`; the run-level handler swallows it and
no document is ever produced.  Here: the all-passing run records six
results, and serializing them yields the `AttributeError`, never a
document. -/
theorem c1_serialization_always_raises :
    (runTests (run_all_scenarios goodOracle db0)).length = 6 ∧
    serializeTests (runTests (run_all_scenarios goodOracle db0))
      = Except.error (PyErr.attributeError "dict object has no attribute for serialization") :=
  ⟨by decide, by rfl⟩

set_option maxRecDepth 8000 in
/-- C2: the claim says the exit code is 0 exactly when every recorded check
passed.  The failing input below is a run in which all six checks pass
(`failed = 0`), yet the process exits 1, because the serialization step of
`main` raises (see C1) and the catch-all handler turns the whole run into a
failure.  The connectivity clauses do hold: a failed database connection or
a failed login also exit 1. -/
theorem c2_exit_code_one_despite_all_passing :
    runFailed (run_all_scenarios goodOracle db0) = some 0 ∧
    pymain true true goodOracle db0 = ExitCode.one ∧
    pymain false true goodOracle db0 = ExitCode.one ∧
    pymain true false goodOracle db0 = ExitCode.one := by
  decide

/-- C3 counterexample: in `cexDB` the only detail line is itself
soft-deleted while its owning entry is posted and not deleted.  The claim
says such a line contributes nothing and its account is not a key of the
mapping; the code's query has no line-level `deleted_at` filter, so account
7 is a key and the deleted line's 5 debit is aggregated. -/
theorem c3_counterexample :
    tbLookup cexDB 1 7 = some ⟨5, 0, 5⟩ ∧ trialBalance_claim cexDB 1 7 = none := by
  decide

/-- C3 amended: `get_trial_balance`'s mapping has as keys exactly the
accounts with at least one detail line — whether or not the line itself is
soft-deleted — belonging to a posted, non-deleted entry of the tenant, and
maps each to the sums of those lines' debit and credit amounts (amounts
being nonnegative, as currency rows are) with balance = debit − credit;
only lines of unposted or deleted entries contribute nothing. -/
theorem c3_amended_trial_balance (db : DB) (cid aid : Nat)
    (hnn : ∀ l ∈ db.details, 0 ≤ l.debit_amount ∧ 0 ≤ l.credit_amount) :
    tbLookup db cid aid = trialBalance_amended db cid aid := by
  rw [tbLookup_eq]
  simp only [trialBalance_amended]
  rw [← tbFilterEq]
  rw [anyFilterEmpty]
  have hmem : ∀ l ∈ (tbLines db cid).filter (fun l => l.account_id == aid),
      l ∈ db.details := by
    intro l hl
    exact (List.mem_filter.mp (List.mem_filter.mp hl).1).1
  have hd : (((tbLines db cid).filter (fun l => l.account_id == aid)).map
        (fun l => casePos l.debit_amount)).sum
      = (((tbLines db cid).filter (fun l => l.account_id == aid)).map
        (fun l => l.debit_amount)).sum := by
    apply congrArg List.sum
    apply List.map_congr_left
    intro l hl
    exact casePos_of_nonneg _ (hnn l (hmem l hl)).1
  have hc : (((tbLines db cid).filter (fun l => l.account_id == aid)).map
        (fun l => casePos l.credit_amount)).sum
      = (((tbLines db cid).filter (fun l => l.account_id == aid)).map
        (fun l => l.credit_amount)).sum := by
    apply congrArg List.sum
    apply List.map_congr_left
    intro l hl
    exact casePos_of_nonneg _ (hnn l (hmem l hl)).2
  cases h : ((tbLines db cid).filter (fun l => l.account_id == aid)).isEmpty
  · simp only [h, Bool.not_false, if_true, if_false, Bool.false_eq_true, ite_false]
    simp only [tbRowFor]
    rw [hd, hc]
  · simp [h]

/-- Witness for C3's amended theorem at the concrete ledger `dbPre`, whose
amounts are nonnegative and whose account 3 carries a posted credit. -/
theorem c3_amended_trial_balance_witness :
    tbLookup dbPre 1 3 = trialBalance_amended dbPre 1 3 :=
  c3_amended_trial_balance dbPre 1 3 (by decide)

/-- C4 counterexample: the claim says every fault arising inside a scenario
is recorded and the scenario returns normally.  But the scenarios contain no
handler: when the trial-balance read raises mid-scenario (here: the
connection drops after posting), scenario 3 propagates the exception past
its own boundary and no result is recorded for it. -/
theorem c4_counterexample :
    scenario_3 badOracle () emptyResults
      = Except.error (PyErr.dbError "connection lost") := rfl

/-- C4 amended: for the outcomes the scenarios themselves handle — account
resolution failure, creation or posting failure, and verification mismatch —
every one of the five scenarios appends exactly one result record and
returns normally; this holds whenever the direct database reads
(`get_account_id`, `get_trial_balance`) do not raise.  A raise from those
reads, by contrast, escapes the scenario (see the counterexample). -/
theorem c4_amended_scenarios_append_one {σ : Type} (o : Oracle σ) (st : σ)
    (r : TestResults)
    (hA : ∀ s c, ∃ v, o.accountId s c = Except.ok v)
    (hT : ∀ s, ∃ t, o.tb s = Except.ok t) :
    oneAppended r (scenario_1 o st r) ∧ oneAppended r (scenario_2 o st r) ∧
    oneAppended r (scenario_3 o st r) ∧ oneAppended r (scenario_4 o st r) ∧
    oneAppended r (scenario_5 o st r) := by
  refine ⟨?_, ?_, ?_, ?_, ?_⟩
  · obtain ⟨c1, h1⟩ := hA st CASH_CODE
    obtain ⟨c2, h2⟩ := hA st CAPITAL_CODE
    simp only [scenario_1, h1, h2, pyBindOk]
    split
    · exact ⟨_, rfl⟩
    · split
      · exact ⟨_, rfl⟩
      · split
        · exact ⟨_, rfl⟩
        · rcases hT _ with ⟨t, ht⟩
          rw [ht]
          exact ⟨_, rfl⟩
  · obtain ⟨c1, h1⟩ := hA st CASH_CODE
    obtain ⟨c2, h2⟩ := hA st CAPITAL_CODE
    simp only [scenario_2, h1, h2, pyBindOk]
    split
    · exact ⟨_, rfl⟩
    · exact ⟨_, rfl⟩
  · obtain ⟨c1, h1⟩ := hA st CASH_CODE
    obtain ⟨c2, h2⟩ := hA st SALES_REVENUE_CODE
    simp only [scenario_3, h1, h2, pyBindOk]
    split
    · exact ⟨_, rfl⟩
    · split
      · exact ⟨_, rfl⟩
      · split
        · exact ⟨_, rfl⟩
        · rcases hT _ with ⟨t, ht⟩
          rw [ht]
          exact ⟨_, rfl⟩
  · obtain ⟨c1, h1⟩ := hA st CASH_CODE
    obtain ⟨c2, h2⟩ := hA st SALARY_EXPENSE_CODE
    simp only [scenario_4, h1, h2, pyBindOk]
    split
    · exact ⟨_, rfl⟩
    · split
      · exact ⟨_, rfl⟩
      · split
        · exact ⟨_, rfl⟩
        · rcases hT _ with ⟨t, ht⟩
          rw [ht]
          exact ⟨_, rfl⟩
  · obtain ⟨c1, h1⟩ := hA st CASH_CODE
    obtain ⟨c2, h2⟩ := hA st COGS_CODE
    simp only [scenario_5, h1, h2, pyBindOk]
    split
    · exact ⟨_, rfl⟩
    · split
      · exact ⟨_, rfl⟩
      · split
        · exact ⟨_, rfl⟩
        · rcases hT _ with ⟨t, ht⟩
          rw [ht]
          exact ⟨_, rfl⟩

/-- Witness for C4's amended theorem: the good oracle's database reads never
raise, and every scenario run from the empty log appends exactly one
record. -/
theorem c4_amended_scenarios_append_one_witness :
    oneAppended emptyResults (scenario_1 goodOracle db0 emptyResults) ∧
    oneAppended emptyResults (scenario_2 goodOracle db0 emptyResults) ∧
    oneAppended emptyResults (scenario_3 goodOracle db0 emptyResults) ∧
    oneAppended emptyResults (scenario_4 goodOracle db0 emptyResults) ∧
    oneAppended emptyResults (scenario_5 goodOracle db0 emptyResults) :=
  c4_amended_scenarios_append_one goodOracle db0 emptyResults
    (fun _ _ => ⟨_, rfl⟩) (fun _ => ⟨_, rfl⟩)

/-- C5 counterexample: the claim says an id is returned exactly on a 2xx
response with a well-formed body containing it.  Status 202 is 2xx and
`goodBody` is well-formed and carries id 42, yet the code returns absent:
it accepts only the literal statuses 200 and 201. -/
theorem c5_counterexample :
    create_journal_entry (HttpResult.response 202 (some goodBody)) = none ∧
    extractId goodBody = some (JVal.num 42) ∧ 200 ≤ 202 ∧ 202 < 300 :=
  ⟨rfl, rfl, by decide, by decide⟩

/-- C5 amended: `create_journal_entry` returns the assigned id exactly when
the status is 200 or 201 and the parsed body's data object carries a
non-null id; every other status (including other 2xx codes), every
unparsable or ill-shaped body, and every transport error yields absent, and
the function never raises (the catch-all handler is part of its
definition). -/
theorem c5_amended_create_only_200_201 (r : HttpResult) :
    create_journal_entry r = (match r with
      | HttpResult.response status (some b) =>
          if status == 200 || status == 201 then extractId b else none
      | HttpResult.response _ none => none
      | HttpResult.transportError _ => none) := by
  match r with
  | HttpResult.transportError m => rfl
  | HttpResult.response st none =>
      cases h : (st == 200 || st == 201) <;>
        simp [create_journal_entry, createInner, h]
  | HttpResult.response st (some b) =>
      cases h : (st == 200 || st == 201)
      · simp [create_journal_entry, createInner, h]
      · cases b with
        | obj kvs =>
            simp only [create_journal_entry, createInner, h, pyBindOk, pyBindErr, extractId]
            cases hf : kvs.find? (fun p => p.1 == "data") with
            | none => simp [jgetD, hf]
            | some p =>
                obtain ⟨k, v⟩ := p
                cases v with
                | obj kvs2 =>
                    simp only [jgetD, hf, pyBindOk, Option.map_some]
                    cases hi : kvs2.find? (fun p => p.1 == "id") with
                    | none => simp [hi]
                    | some q =>
                        obtain ⟨k2, w⟩ := q
                        cases w <;> simp [hi]
                | null => simp [jgetD, hf]
                | num n => simp [jgetD, hf]
                | str s => simp [jgetD, hf]
                | arr xs => simp [jgetD, hf]
        | null => simp [create_journal_entry, createInner, extractId, jgetD, h]
        | num n => simp [create_journal_entry, createInner, extractId, jgetD, h]
        | str s => simp [create_journal_entry, createInner, extractId, jgetD, h]
        | arr xs => simp [create_journal_entry, createInner, extractId, jgetD, h]

/-- C6: once both accounts resolve, scenario 2 submits the unbalanced
{debit 1000 / credit 500} entry and records a pass exactly when creation
returned no identifier (`entry_id is None`); whatever identifier creation
did return is attached to the recorded result, which is then a failure. -/
theorem c6_scenario2_pass_iff_absent {σ : Type} (o : Oracle σ) (st : σ)
    (r : TestResults) (c k : Nat)
    (h1 : o.accountId st CASH_CODE = Except.ok (some c)) (hc : c ≠ 0)
    (h2 : o.accountId st CAPITAL_CODE = Except.ok (some k)) (hk : k ≠ 0) :
    scenario_2 o st r = Except.ok
      (((o.create st (entry2 c k)).1.isNone, (o.create st (entry2 c k)).1),
       (o.create st (entry2 c k)).2,
       r.add_test n2 (o.create st (entry2 c k)).1.isNone
         (s2msg (o.create st (entry2 c k)).1.isNone) (o.create st (entry2 c k)).1) := by
  simp [scenario_2, h1, h2, truthyId, hc, hk]

/-- Witness for C6 at the good oracle: the unbalanced entry is refused
(`none`), so the recorded outcome is a pass with no identifier attached. -/
theorem c6_scenario2_pass_iff_absent_witness :
    scenario_2 goodOracle db0 emptyResults = Except.ok
      (((goodOracle.create db0 (entry2 1 2)).1.isNone, (goodOracle.create db0 (entry2 1 2)).1),
       (goodOracle.create db0 (entry2 1 2)).2,
       emptyResults.add_test n2 (goodOracle.create db0 (entry2 1 2)).1.isNone
         (s2msg (goodOracle.create db0 (entry2 1 2)).1.isNone)
         (goodOracle.create db0 (entry2 1 2)).1) ∧
    (goodOracle.create db0 (entry2 1 2)).1 = none :=
  ⟨c6_scenario2_pass_iff_absent goodOracle db0 emptyResults 1 2
      rfl (by decide) rfl (by decide),
   by decide⟩

set_option maxRecDepth 8000 in
/-- C7 counterexample: the claim says scenario 3 passes exactly when the
revenue account's aggregate credit increased by 50000.  In `dbPre` the
account already carries a posted credit of 10000; the scenario creates and
posts its 50000 entry, the aggregate moves from 10000 to 60000 — an
increase of exactly 50000 — yet the recorded outcome is a failure, because
the code compares the absolute aggregate (60000) against 50000. -/
theorem c7_counterexample :
    scenFlag (scenario_3 goodOracle dbPre emptyResults) = some (false, some 2) ∧
    tbCreditAt dbPre 3 = 10000 ∧
    (scenState (scenario_3 goodOracle dbPre emptyResults)).map (fun d => tbCreditAt d 3)
      = some 60000 ∧
    (scenState (scenario_3 goodOracle dbPre emptyResults)).map
      (fun d => tbCreditAt d 3 - tbCreditAt dbPre 3) = some 50000 := by
  decide

/-- C7 amended: when scenario 3 successfully resolves both accounts,
creates and posts the {debit cash 50000 / credit revenue 50000} entry, it
records a pass exactly when the revenue account's aggregate credit in the
re-read trial balance equals 50000 within tolerance 0.01 — the absolute
aggregate, not the increase over the pre-scenario value. -/
theorem c7_amended_absolute_credit_check {σ : Type} (o : Oracle σ) (st : σ)
    (r : TestResults) (c v i : Nat)
    (h1 : o.accountId st CASH_CODE = Except.ok (some c)) (hc : c ≠ 0)
    (h2 : o.accountId st SALES_REVENUE_CODE = Except.ok (some v)) (hv : v ≠ 0)
    (hcr : (o.create st (entry3 c v)).1 = some i) (hi : i ≠ 0)
    (hp : (o.post (o.create st (entry3 c v)).2 i).1 = true)
    (tbl : List (Nat × TBRow))
    (htb : o.tb (o.post (o.create st (entry3 c v)).2 i).2 = Except.ok tbl) :
    scenario_3 o st r = Except.ok
      ((s3pass tbl v, some i),
       (o.post (o.create st (entry3 c v)).2 i).2,
       r.add_test n3 (s3pass tbl v) (revMsg (lookupTB tbl v)) (some i)) ∧
    (s3pass tbl v = true ↔
      ∃ row, lookupTB tbl v = some row ∧ |row.credit - 50000| < 1/100) := by
  constructor
  · simp only [scenario_3, h1, h2, pyBindOk]
    simp only [truthyId, Option.getD_some]
    have hcne : (c != 0) = true := by simp [hc]
    have hvne : (v != 0) = true := by simp [hv]
    rw [hcne, hvne]
    simp only [Bool.not_true, Bool.or_self, Bool.false_eq_true, if_false]
    rw [hcr]
    simp only [Option.getD_some]
    have hine : (i != 0) = true := by simp [hi]
    rw [hine]
    simp only [Bool.not_true, Bool.false_eq_true, if_false]
    rw [hp]
    simp only [Bool.not_true, Bool.false_eq_true, if_false]
    rw [htb]
    simp only [pyBindOk]
  · unfold s3pass
    cases hrow : lookupTB tbl v with
    | none => simp
    | some row => simp [scenario3_check]

/-- Witness for C7's amended theorem: on the empty ledger the created entry
gets id 1, posting succeeds, the revenue aggregate is exactly 50000, and a
pass is recorded. -/
theorem c7_amended_absolute_credit_check_witness :
    (scenario_3 goodOracle db0 emptyResults = Except.ok
      ((s3pass (get_trial_balance ((goodOracle.post (goodOracle.create db0 (entry3 1 3)).2 1).2)
          TEST_COMPANY_ID) 3, some 1),
       (goodOracle.post (goodOracle.create db0 (entry3 1 3)).2 1).2,
       emptyResults.add_test n3
         (s3pass (get_trial_balance ((goodOracle.post (goodOracle.create db0 (entry3 1 3)).2 1).2)
            TEST_COMPANY_ID) 3)
         (revMsg (lookupTB (get_trial_balance
            ((goodOracle.post (goodOracle.create db0 (entry3 1 3)).2 1).2) TEST_COMPANY_ID) 3))
         (some 1))) ∧
    s3pass (get_trial_balance ((goodOracle.post (goodOracle.create db0 (entry3 1 3)).2 1).2)
      TEST_COMPANY_ID) 3 = true :=
  ⟨(c7_amended_absolute_credit_check goodOracle db0 emptyResults 1 3 1
      rfl (by decide) rfl (by decide) (by decide) (by decide) rfl
      (get_trial_balance ((goodOracle.post (goodOracle.create db0 (entry3 1 3)).2 1).2)
        TEST_COMPANY_ID) rfl).1,
   by decide⟩

/-- C8: every balance comparison the harness performs — scenario 1's global
balance check, scenario 3's revenue-credit check, scenario 4's
expense-debit check, scenario 5's COGS-debit check and the final
cross-validation — is extensionally the single predicate
`withinTolerance(a, b, eps) = (|a − b| < eps)` at the default epsilon 0.01
(in the source each site hard-codes the same `abs(x - y) < 0.01`
inline). -/
theorem c8_within_tolerance_extensional (a b : ℚ) :
    scenario1_check a b = withinTolerance a b defaultEps ∧
    scenario3_check a = withinTolerance a 50000 defaultEps ∧
    scenario4_check a = withinTolerance a 20000 defaultEps ∧
    scenario5_check a = withinTolerance a 30000 defaultEps ∧
    crossval_check a b = withinTolerance a b defaultEps :=
  ⟨rfl, rfl, rfl, rfl, rfl⟩

/-- C9: whatever the ledger answers, as long as its create endpoint stores
at most an unposted entry (posting is the separate `postEntry` transition),
scenario 2 leaves the set of posted entries and every trial-balance
aggregate unchanged — it never calls `post_journal_entry`, so even a ledger
that wrongly accepts the unbalanced entry leaves it unposted and invisible
to every later trial-balance read. -/
theorem c9_scenario2_preserves_posted_state (o : Oracle DB)
    (hco : CreatesOnlyDrafts o) (st : DB) (r : TestResults)
    (out : Bool × Option Nat) (s2 : DB) (r2 : TestResults)
    (h : scenario_2 o st r = Except.ok (out, s2, r2)) (cid : Nat) :
    postedIds s2 cid = postedIds st cid ∧
    get_trial_balance s2 cid = get_trial_balance st cid := by
  cases hA : o.accountId st CASH_CODE with
  | error e =>
      unfold scenario_2 at h
      rw [hA] at h
      simp at h
  | ok cash =>
    cases hB : o.accountId st CAPITAL_CODE with
    | error e =>
        unfold scenario_2 at h
        rw [hA, hB] at h
        simp at h
    | ok capital =>
      unfold scenario_2 at h
      rw [hA, hB] at h
      simp only [pyBindOk] at h
      split at h
      · simp only [Except.ok.injEq] at h
        have hs : st = s2 :=
          congrArg (fun x : (Bool × Option Nat) × DB × TestResults => x.2.1) h
        rw [← hs]
        exact ⟨rfl, rfl⟩
      · simp only [Except.ok.injEq] at h
        have hs : (o.create st (entry2 (cash.getD 0) (capital.getD 0))).2 = s2 :=
          congrArg (fun x : (Bool × Option Nat) × DB × TestResults => x.2.1) h
        rw [← hs]
        rcases hco st (entry2 (cash.getD 0) (capital.getD 0)) with hsame |
          ⟨e, ls, he, hst2, hfresh, hlsl⟩
        · rw [hsame]
          exact ⟨rfl, rfl⟩
        · rw [he]
          exact ⟨postedIds_append_draft st e ls cid hst2,
                 gtb_append_draft st e ls cid hst2 hfresh hlsl⟩

/-- Witness for C9 at the lenient ledger, which wrongly accepts the
unbalanced entry (returning id 1) and stores it as a draft: the posted set
and the trial balance after scenario 2 coincide with those before. -/
theorem c9_scenario2_preserves_posted_state_witness :
    postedIds ((lenientOracle.create db0 (entry2 1 2)).2) 1 = postedIds db0 1 ∧
    get_trial_balance ((lenientOracle.create db0 (entry2 1 2)).2) 1
      = get_trial_balance db0 1 :=
  c9_scenario2_preserves_posted_state lenientOracle lenient_creates_drafts db0
    emptyResults (false, some 1) ((lenientOracle.create db0 (entry2 1 2)).2)
    (emptyResults.add_test n2 false (s2msg false) (some 1)) rfl 1

/-- C10: whenever the summary is rendered with no recorded results
(`passed + failed = 0`), the success-rate computation `passed/total*100`
divides by zero and `print_summary` raises `ZeroDivisionError`. -/
theorem c10_print_summary_zero_division (r : TestResults)
    (h : r.passed + r.failed = 0) :
    r.print_summary = Except.error PyErr.zeroDivision := by
  simp [TestResults.print_summary, h]

/-- Witness for C10: a fresh, empty results tracker. -/
theorem c10_print_summary_zero_division_witness :
    emptyResults.print_summary = Except.error PyErr.zeroDivision :=
  c10_print_summary_zero_division emptyResults rfl
